import Mathlib

/-!
Shallow embedding of the Agilent-6626A-GUI instrument driver
(`power_supply.py`) and its telemetry poller (`main.py`,
`VoltageMonitorThread.run`).

Modelling conventions:
* Python exceptions become the inductive `Exc`; the three classes of the
  driver's taxonomy (`PowerSupplyError` and its two subclasses) are the
  constructors `powerSupplyError`, `channelNotEnabledError`, `timeoutError`,
  each carrying the message string the source builds.  Raw exceptions that
  escape the driver (pyvisa errors, `AttributeError`, ...) are `visaIOError`
  and `otherError`.
* Instance state (`self.channels`, `self.set_voltages`, `self.set_currents`,
  `self.connection`, `self.mock`, `self.module_id`, `self.instrument`)
  becomes the record `PSState`; each method is a pure function from a state
  (plus transport-oracle inputs) to an `Outcome`, which carries the
  `Except`-style result, the list of observable transport events
  (writes, queries, sleeps) and the post-state.
* The transport is an oracle: a write either succeeds (`none`) or raises a
  given exception (`some e`); a query either returns a reply string or
  raises.  Python's `float(...)` parse of a reply is the abstract function
  `pf : String → ℚ` supplied per call.
* Python floats are modelled as rationals; `random.random()` is an oracle
  argument `r` with `0 ≤ r < 1`.
-/

namespace Agilent6626

/-- Exception values.  The first three constructors are the classes declared
in `power_supply.py` (`PowerSupplyError`, `PowerSupplyChannelNotEnabledError`,
`PowerSupplyTimeoutError`); `visaIOError` and `otherError` model raw
exceptions from below the driver. -/
inductive Exc where
  | powerSupplyError (msg : String)
  | channelNotEnabledError (msg : String)
  | timeoutError (msg : String)
  | visaIOError (msg : String)
  | otherError (msg : String)
deriving DecidableEq, Repr

/-- Whether an exception is an instance of the `PowerSupplyError` class
hierarchy (the two named subclasses inherit from it).  The poller's three
`except` clauses in `main.py` catch exactly these. -/
def Exc.isPowerSupplyErrorClass : Exc → Bool
  | .powerSupplyError _ => true
  | .channelNotEnabledError _ => true
  | .timeoutError _ => true
  | .visaIOError _ => false
  | .otherError _ => false

/-- Observable transport-level events: a raw write of a string, a query of a
string, and a sleep of a number of milliseconds. -/
inductive Event where
  | write (s : String)
  | query (s : String)
  | sleepMs (n : Nat)
deriving DecidableEq, Repr

/-- The mutable instance state of class `PowerSupply`.  `channels` /
`set_voltages` / `set_currents` model the three dicts keyed by 1..4
(`set_voltages` and `set_currents` are `Option`-valued so that a missing key,
Python `KeyError`, is representable; `channels` keeps its keys fixed because
every write to it is guarded by a membership check).  `module_id` and
`instrumentOpen` model the attributes `self.module_id` / `self.instrument`,
which do not exist before `connect` assigns them. -/
structure PSState where
  channels : Nat → Bool
  set_voltages : Nat → Option ℚ
  set_currents : Nat → Option ℚ
  connection : Bool
  debug : Bool
  mock : Bool
  module_id : Option String
  instrumentOpen : Bool
  instrument_baud : Option Nat
  instrument_timeout : Option Nat

/-- Channel-id membership in the dicts built by `__init__`
(keys 1, 2, 3, 4). -/
def validChannel (c : Nat) : Bool :=
  c == 1 || c == 2 || c == 3 || c == 4

/-- `PowerSupply.__init__(debug, mock)`. -/
def initState (debug mock : Bool) : PSState :=
  { channels := fun _ => false
    set_voltages := fun c => if validChannel c then some 0 else none
    set_currents := fun c => if validChannel c then some 0 else none
    connection := false
    debug := debug
    mock := mock
    module_id := none
    instrumentOpen := false
    instrument_baud := none
    instrument_timeout := none }

/-- Result of running one driver method: the returned value or raised
exception, the transport events it produced, and the post-state. -/
structure Outcome (α : Type) where
  result : Except Exc α
  trace : List Event
  state : PSState

/-- The command framing used by `_send_command` / `_query_command`:
`f"OUTPUT {self.module_id}; {command}"`. -/
def frame (mid cmd : String) : String :=
  "OUTPUT " ++ mid ++ "; " ++ cmd

/-- `PowerSupply._send_command(command)` (power_supply.py:52-63).  Builds the
framed string (raising `AttributeError` if `module_id` was never assigned),
writes it unless in mock mode (`wres` is what `instrument.write` does:
`none` = success, `some e` = raise `e`, which propagates uncaught), then
sleeps 0.2 s.  The sleep is not reached when the write raises. -/
def send_command (st : PSState) (cmd : String) (wres : Option Exc) : Outcome Unit :=
  match st.module_id with
  | none => ⟨.error (.otherError "AttributeError: module_id"), [], st⟩
  | some mid =>
    let full := frame mid cmd
    if st.mock then ⟨.ok (), [.sleepMs 200], st⟩
    else if st.instrumentOpen = false then
      ⟨.error (.otherError "AttributeError: instrument"), [], st⟩
    else
      match wres with
      | some e => ⟨.error e, [.write full], st⟩
      | none => ⟨.ok (), [.write full, .sleepMs 200], st⟩

/-- `PowerSupply._query_command(command)` (power_supply.py:65-87).  In mock
mode the body is skipped and the method returns Python `None`.  Otherwise the
instrument's reply is returned; a `pyvisa.errors.VisaIOError` is re-raised as
`PowerSupplyTimeoutError`, any other exception inside the `try` (including a
missing `instrument` attribute) as a generic `PowerSupplyError`. -/
def query_command (st : PSState) (cmd : String) (reply : Except Exc String) :
    Outcome (Option String) :=
  match st.module_id with
  | none => ⟨.error (.powerSupplyError "Failed to communicate with power supply."), [], st⟩
  | some mid =>
    let full := frame mid cmd
    if st.mock then ⟨.ok none, [], st⟩
    else if st.instrumentOpen = false then
      ⟨.error (.powerSupplyError "Failed to communicate with power supply."), [], st⟩
    else
      match reply with
      | .ok s => ⟨.ok (some s), [.query full], st⟩
      | .error (.visaIOError _) =>
        ⟨.error (.timeoutError "Timeout occurred while communicating with power supply."),
          [.query full], st⟩
      | .error _ =>
        ⟨.error (.powerSupplyError "Failed to communicate with power supply."),
          [.query full], st⟩

/-- `PowerSupply.send_raw_command(command)` (power_supply.py:375-400).
Requires a connection and a non-empty command, writes the command unframed
(even in mock mode there is no mock branch here), and returns the literal
string `"TODO: Implement response"`. -/
def send_raw_command (st : PSState) (cmd : String) (wres : Option Exc) : Outcome String :=
  if st.connection = false then
    ⟨.error (.powerSupplyError "Power supply is not connected."), [], st⟩
  else if cmd = "" then
    ⟨.error (.powerSupplyError "Command is empty."), [], st⟩
  else if st.instrumentOpen = false then
    ⟨.error (.otherError "AttributeError: instrument"), [], st⟩
  else
    match wres with
    | some e => ⟨.error e, [.write cmd], st⟩
    | none => ⟨.ok "TODO: Implement response", [.write cmd], st⟩

/-- `PowerSupply.set_voltage(channel, voltage)` (power_supply.py:179-197).
Checks the connection first, then rejects negative values (with the generic
communication-failure message), then sends `VSET` and finally records the
setpoint in `self.set_voltages`. -/
def set_voltage (st : PSState) (channel : Nat) (voltage : ℚ) (wres : Option Exc) :
    Outcome Unit :=
  if st.connection = false then
    ⟨.error (.powerSupplyError "Power supply is not connected."), [], st⟩
  else if voltage < 0 then
    ⟨.error (.powerSupplyError "Failed to communicate with power supply."), [], st⟩
  else
    match send_command st ("VSET " ++ toString channel ++ "," ++ toString voltage) wres with
    | ⟨.ok _, tr, st'⟩ =>
      ⟨.ok (), tr,
        { st' with set_voltages := fun k => if k = channel then some voltage else st'.set_voltages k }⟩
    | ⟨.error e, tr, st'⟩ => ⟨.error e, tr, st'⟩

/-- `PowerSupply.set_current_limit(channel, current)` (power_supply.py:199-217),
symmetric to `set_voltage` with `ISET` and `self.set_currents`. -/
def set_current_limit (st : PSState) (channel : Nat) (current : ℚ) (wres : Option Exc) :
    Outcome Unit :=
  if st.connection = false then
    ⟨.error (.powerSupplyError "Power supply is not connected."), [], st⟩
  else if current < 0 then
    ⟨.error (.powerSupplyError "Failed to communicate with power supply."), [], st⟩
  else
    match send_command st ("ISET " ++ toString channel ++ "," ++ toString current) wres with
    | ⟨.ok _, tr, st'⟩ =>
      ⟨.ok (), tr,
        { st' with set_currents := fun k => if k = channel then some current else st'.set_currents k }⟩
    | ⟨.error e, tr, st'⟩ => ⟨.error e, tr, st'⟩

/-- `PowerSupply.set_voltage_range(channel, voltage_range)`
(power_supply.py:219-227): sends `VRSET` with no connection check. -/
def set_voltage_range (st : PSState) (channel : Nat) (voltage_range : ℚ) (wres : Option Exc) :
    Outcome Unit :=
  send_command st ("VRSET " ++ toString channel ++ "," ++ toString voltage_range) wres

/-- `PowerSupply.set_current_range(channel, current_range)`
(power_supply.py:229-237): sends `IRSET` with no connection check. -/
def set_current_range (st : PSState) (channel : Nat) (current_range : ℚ) (wres : Option Exc) :
    Outcome Unit :=
  send_command st ("IRSET " ++ toString channel ++ "," ++ toString current_range) wres

/-- `PowerSupply.set_overvoltage_protection(channel, voltage)`
(power_supply.py:277-284): sends `OVSET` with no connection check. -/
def set_overvoltage_protection (st : PSState) (channel : Nat) (voltage : ℚ) (wres : Option Exc) :
    Outcome Unit :=
  send_command st ("OVSET " ++ toString channel ++ "," ++ toString voltage) wres

/-- `PowerSupply.enable_overcurrent_protection(channel)`
(power_supply.py:286-292): sends `OCP <ch>,ON` with no connection check. -/
def enable_overcurrent_protection (st : PSState) (channel : Nat) (wres : Option Exc) :
    Outcome Unit :=
  send_command st ("OCP " ++ toString channel ++ ",ON") wres

/-- `PowerSupply.disable_overcurrent_protection(channel)`
(power_supply.py:294-300): sends `OCP <ch>,OFF` with no connection check. -/
def disable_overcurrent_protection (st : PSState) (channel : Nat) (wres : Option Exc) :
    Outcome Unit :=
  send_command st ("OCP " ++ toString channel ++ ",OFF") wres

/-- `PowerSupply.enable_output(channel)` (power_supply.py:239-256).  Requires
a connection and a known channel id, sets `self.channels[channel] = True`
*before* sending `OUT <ch>,1`; the flag is not rolled back if the send
raises. -/
def enable_output (st : PSState) (channel : Nat) (wres : Option Exc) : Outcome Unit :=
  if st.connection = false then
    ⟨.error (.powerSupplyError "Power supply is not connected."), [], st⟩
  else if validChannel channel = false then
    ⟨.error (.powerSupplyError "Failed to communicate with power supply."), [], st⟩
  else
    let st1 := { st with channels := fun k => if k = channel then true else st.channels k }
    send_command st1 ("OUT " ++ toString channel ++ ",1") wres

/-- `PowerSupply.disable_output(channel)` (power_supply.py:258-275),
symmetric to `enable_output` with `False` and `OUT <ch>,0`. -/
def disable_output (st : PSState) (channel : Nat) (wres : Option Exc) : Outcome Unit :=
  if st.connection = false then
    ⟨.error (.powerSupplyError "Power supply is not connected."), [], st⟩
  else if validChannel channel = false then
    ⟨.error (.powerSupplyError "Failed to communicate with power supply."), [], st⟩
  else
    let st1 := { st with channels := fun k => if k = channel then false else st.channels k }
    send_command st1 ("OUT " ++ toString channel ++ ",0") wres

/-- `PowerSupply.get_programmed_voltage(channel)` (power_supply.py:346-359).
Mock mode reads `self.set_voltages[channel]` (a missing key is a `KeyError`);
otherwise queries `VSET?` and clamps a negative parsed reply to 0. -/
def get_programmed_voltage (st : PSState) (channel : Nat) (reply : Except Exc String)
    (pf : String → ℚ) : Outcome ℚ :=
  if st.mock then
    match st.set_voltages channel with
    | some v => ⟨.ok v, [], st⟩
    | none => ⟨.error (.otherError "KeyError"), [], st⟩
  else
    match query_command st ("VSET? " ++ toString channel) reply with
    | ⟨.ok (some s), tr, st'⟩ =>
      ⟨.ok (if pf s < 0 then 0 else pf s), tr, st'⟩
    | ⟨.ok none, tr, st'⟩ => ⟨.error (.otherError "TypeError"), tr, st'⟩
    | ⟨.error e, tr, st'⟩ => ⟨.error e, tr, st'⟩

/-- `PowerSupply.get_programmed_current_limit(channel)`
(power_supply.py:361-373), symmetric to `get_programmed_voltage` with
`self.set_currents` and `ISET?`. -/
def get_programmed_current_limit (st : PSState) (channel : Nat) (reply : Except Exc String)
    (pf : String → ℚ) : Outcome ℚ :=
  if st.mock then
    match st.set_currents channel with
    | some v => ⟨.ok v, [], st⟩
    | none => ⟨.error (.otherError "KeyError"), [], st⟩
  else
    match query_command st ("ISET? " ++ toString channel) reply with
    | ⟨.ok (some s), tr, st'⟩ =>
      ⟨.ok (if pf s < 0 then 0 else pf s), tr, st'⟩
    | ⟨.ok none, tr, st'⟩ => ⟨.error (.otherError "TypeError"), tr, st'⟩
    | ⟨.error e, tr, st'⟩ => ⟨.error e, tr, st'⟩

/-- `PowerSupply.get_output_voltage(channel)` (power_supply.py:302-322).
Requires a connection, a known channel id and the channel's enabled flag —
the disabled-channel raise on line 314 uses the *base* `PowerSupplyError`
class.  Mock mode returns programmed voltage plus `(random.random()-0.5)*0.1`
(`r` is the `random.random()` draw); otherwise queries `VOUT?` and clamps a
negative parsed reply to 0. -/
def get_output_voltage (st : PSState) (channel : Nat) (r : ℚ) (reply : Except Exc String)
    (pf : String → ℚ) : Outcome ℚ :=
  if st.connection = false then
    ⟨.error (.powerSupplyError "Power supply is not connected."), [], st⟩
  else if validChannel channel = false then
    ⟨.error (.powerSupplyError "Failed to communicate with power supply."), [], st⟩
  else if st.channels channel = false then
    ⟨.error (.powerSupplyError ("Channel " ++ toString channel ++ " is not turned on.")), [], st⟩
  else if st.mock then
    match get_programmed_voltage st channel reply pf with
    | ⟨.ok v, tr, st'⟩ => ⟨.ok (v + (r - 1/2) * (1/10)), tr, st'⟩
    | ⟨.error e, tr, st'⟩ => ⟨.error e, tr, st'⟩
  else
    match query_command st ("VOUT? " ++ toString channel) reply with
    | ⟨.ok (some s), tr, st'⟩ =>
      ⟨.ok (if pf s < 0 then 0 else pf s), tr, st'⟩
    | ⟨.ok none, tr, st'⟩ => ⟨.error (.otherError "TypeError"), tr, st'⟩
    | ⟨.error e, tr, st'⟩ => ⟨.error e, tr, st'⟩

/-- `PowerSupply.get_output_current(channel)` (power_supply.py:324-344).
Same guards as `get_output_voltage`, except that the disabled-channel raise
on line 336 uses `PowerSupplyChannelNotEnabledError`, and the `IOUT?` reply
is returned *without* the negative clamp. -/
def get_output_current (st : PSState) (channel : Nat) (r : ℚ) (reply : Except Exc String)
    (pf : String → ℚ) : Outcome ℚ :=
  if st.connection = false then
    ⟨.error (.powerSupplyError "Power supply is not connected."), [], st⟩
  else if validChannel channel = false then
    ⟨.error (.powerSupplyError "Failed to communicate with power supply."), [], st⟩
  else if st.channels channel = false then
    ⟨.error (.channelNotEnabledError ("Channel " ++ toString channel ++ " is not turned on.")), [], st⟩
  else if st.mock then
    match get_programmed_current_limit st channel reply pf with
    | ⟨.ok v, tr, st'⟩ => ⟨.ok (v + (r - 1/2) * (1/10)), tr, st'⟩
    | ⟨.error e, tr, st'⟩ => ⟨.error e, tr, st'⟩
  else
    match query_command st ("IOUT? " ++ toString channel) reply with
    | ⟨.ok (some s), tr, st'⟩ => ⟨.ok (pf s), tr, st'⟩
    | ⟨.ok none, tr, st'⟩ => ⟨.error (.otherError "TypeError"), tr, st'⟩
    | ⟨.error e, tr, st'⟩ => ⟨.error e, tr, st'⟩

/-- `PowerSupply.is_channel_enabled(channel)` (power_supply.py:411-418). -/
def is_channel_enabled (st : PSState) (channel : Nat) : Bool :=
  st.channels channel

/-- `PowerSupply.disconnect()` (power_supply.py:165-177). -/
def disconnect (st : PSState) : Outcome Unit :=
  if st.connection = false then
    ⟨.error (.powerSupplyError "Failed to disconnect from power supply."), [], st⟩
  else if st.instrumentOpen = false then
    ⟨.error (.otherError "AttributeError: instrument"), [], st⟩
  else
    ⟨.ok (), [], { st with connection := false }⟩

/-- Sequencing helper: run `next` on the state of `o` when `o` succeeded,
concatenating traces; propagate the exception of `o` otherwise. -/
def Outcome.andThen (o : Outcome α) (next : PSState → Outcome β) : Outcome β :=
  match o.result with
  | .error e => ⟨.error e, o.trace, o.state⟩
  | .ok _ =>
    let o2 := next o.state
    ⟨o2.result, o.trace ++ o2.trace, o2.state⟩

/-- Append trace events to an outcome (models a `time.sleep` executed after a
call that returned normally). -/
def Outcome.thenEvents (o : Outcome α) (evs : List Event) : Outcome α :=
  match o.result with
  | .error e => ⟨.error e, o.trace, o.state⟩
  | .ok a => ⟨.ok a, o.trace ++ evs, o.state⟩

/-- The `while attempts < 3` identification-retry loop of
`PowerSupply.connect` (power_supply.py:138-150).  `attempts` is the loop
counter; `q k` is what the k-th `instrument.query("...ID?")` of `connect`
does (index 0 was consumed by the unguarded query on line 137, the loop's
attempts use indices 1, 2, 3).  The loop body runs at most `3 - attempts`
times, so recursion on a fuel of 3 reproduces it exactly. -/
def connectRetry (q : Nat → Except Exc String) : Nat → Nat → PSState → Outcome Unit
  | 0, _, st => ⟨.ok (), [], st⟩
  | fuel + 1, attempts, st =>
    if attempts < 3 then
      match query_command st "ID?" (q (attempts + 1)) with
      | ⟨.ok _, tr, st'⟩ => ⟨.ok (), tr, st'⟩
      | ⟨.error _, tr, st'⟩ =>
        if attempts + 1 ≥ 3 then
          ⟨.error (.powerSupplyError "Failed to connect to power supply after 3 attempts."),
            tr, st'⟩
        else
          let rest := connectRetry q fuel (attempts + 1) st'
          ⟨rest.result, tr ++ rest.trace, rest.state⟩
    else ⟨.ok (), [], st⟩

/-- `PowerSupply.connect(serial_port, baudrate, instrument_id, timeout)`
(power_supply.py:105-153).  Oracle inputs: `openRes` is what
`rm.open_resource` does, `w k` what the k-th raw bridge write does
(`++auto 1`, `++addr 5`, `++eot_char 13`, `++eot_enable 1`), `q k` what the
k-th `ID?` query does (k = 0 is the unguarded `print(... _query_command ...)`
on line 137, k = 1..3 the retry loop's attempts).  Note that
`self.connection = True` is assigned on line 127, before any of the
handshake traffic, and is never reset on failure. -/
def connect (st0 : PSState) (serial_port : String) (baudrate : Nat) (instrument_id : String)
    (timeout : Nat) (openRes : Option Exc) (w : Nat → Option Exc)
    (q : Nat → Except Exc String) : Outcome Unit :=
  if serial_port = "" || baudrate == 0 || instrument_id = "" then
    ⟨.error (.powerSupplyError "Invalid connection parameters."), [], st0⟩
  else
    let st1 := { st0 with module_id := some instrument_id }
    let afterOpen : Outcome Unit :=
      if st1.mock then ⟨.ok (), [], st1⟩
      else
        match openRes with
        | some e => ⟨.error e, [], st1⟩
        | none =>
          ⟨.ok (), [],
            { st1 with instrumentOpen := true, instrument_baud := some baudrate,
                       instrument_timeout := some timeout }⟩
    afterOpen.andThen fun st2 =>
      let st3 := { st2 with connection := true }
      (((((send_raw_command st3 "++auto 1" (w 0)).thenEvents [.sleepMs 100]).andThen
          (fun s => (send_raw_command s "++addr 5" (w 1)).thenEvents [.sleepMs 100])).andThen
          (fun s => (send_raw_command s "++eot_char 13" (w 2)).thenEvents [.sleepMs 100])).andThen
          (fun s => (send_raw_command s "++eot_enable 1" (w 3)).thenEvents [.sleepMs 1000])).andThen
        fun s =>
          (query_command s "ID?" (q 0)).andThen fun s' =>
            connectRetry q 3 0 s'

/-!  The telemetry poller (`main.py`, `VoltageMonitorThread`).  -/

/-- One `(channel, voltage, current)` sample as emitted by
`realtime_data_updated.emit`. -/
def Sample : Type := Nat × ℚ × ℚ

/-- `VoltageMonitorThread.__init__` default polling interval (`interval=100`,
milliseconds), used as-is by `PowerSupplyGUI`. -/
def monitorInterval : Nat := 100

/-- One iteration of the poller's inner `for` body (main.py:246-256) at a
single channel: call `get_output_voltage` then `get_output_current`; emit a
sample if both succeed; swallow an exception of the `PowerSupplyError` class
hierarchy (the three `except` clauses); let any other exception escape.
`rv`/`rc` are the mock-jitter draws, `qv`/`qc` the instrument replies for the
two queries, `pf` the float parse. -/
def pollChannel (st : PSState) (ch : Nat) (rv rc : ℚ) (qv qc : Except Exc String)
    (pf : String → ℚ) : Except Exc (Option Sample) × List Event :=
  match get_output_voltage st ch rv qv pf with
  | ⟨.ok v, tr1, _⟩ =>
    match get_output_current st ch rc qc pf with
    | ⟨.ok c, tr2, _⟩ => (.ok (some (ch, v, c)), tr1 ++ tr2)
    | ⟨.error e, tr2, _⟩ =>
      (if e.isPowerSupplyErrorClass then .ok none else .error e, tr1 ++ tr2)
  | ⟨.error e, tr1, _⟩ =>
    (if e.isPowerSupplyErrorClass then .ok none else .error e, tr1)

/-- The poller's `for channel in range(1, 5)` loop over a list of remaining
channels: an uncaught exception aborts the sweep (it would kill the thread);
otherwise the samples of the visited channels are collected in order. -/
def sweepChannels (st : PSState) (rv rc : Nat → ℚ) (qv qc : Nat → Except Exc String)
    (pf : String → ℚ) : List Nat → Except Exc (List Sample) × List Event
  | [] => (.ok [], [])
  | ch :: rest =>
    match pollChannel st ch (rv ch) (rc ch) (qv ch) (qc ch) pf with
    | (.ok osamp, tr) =>
      match sweepChannels st rv rc qv qc pf rest with
      | (.ok samps, tr') => (.ok (osamp.toList ++ samps), tr ++ tr')
      | (.error e, tr') => (.error e, tr ++ tr')
    | (.error e, tr) => (.error e, tr)

/-- One full sweep of `VoltageMonitorThread.run` (main.py:244-258): channels
1..4 in ascending order, then `self.msleep(self.interval)` with the default
100 ms interval.  The sleep is reached only if no exception escaped the
per-channel `try` blocks. -/
def monitorSweep (st : PSState) (rv rc : Nat → ℚ) (qv qc : Nat → Except Exc String)
    (pf : String → ℚ) : Except Exc (List Sample) × List Event :=
  match sweepChannels st rv rc qv qc pf [1, 2, 3, 4] with
  | (.ok samps, tr) => (.ok samps, tr ++ [.sleepMs monitorInterval])
  | (.error e, tr) => (.error e, tr)

/-!  Fixture states and oracles used by the concrete theorems below.  -/

/-- A mock-mode supply right after a successful `connect` (module id `"5"`). -/
def mockConnected : PSState :=
  { initState false true with connection := true, module_id := some "5" }

/-- A real-mode supply right after a successful
`connect("COM3", 9600, "5", 2500)`. -/
def realConnected : PSState :=
  { initState false false with
      connection := true, module_id := some "5", instrumentOpen := true,
      instrument_baud := some 9600, instrument_timeout := some 2500 }

/-- `realConnected` after `disconnect()`. -/
def realDisconnected : PSState :=
  { realConnected with connection := false }

/-- `realConnected` with all four channel outputs enabled. -/
def realAllOn : PSState :=
  { realConnected with channels := fun c => validChannel c }

/-- A concrete model of Python `float(...)`, fixed on the reply strings the
concrete scenarios use. -/
def pfFixture : String → ℚ :=
  fun s => if s = "-0.02" then -(1/50) else 0

/-- The dict-key invariant `__init__` establishes and every method preserves:
`self.set_voltages` and `self.set_currents` hold every channel key 1..4. -/
def dictsComplete (st : PSState) : Prop :=
  ∀ c ∈ [1, 2, 3, 4], (st.set_voltages c).isSome = true ∧ (st.set_currents c).isSome = true

/-- Membership in the channel dicts coincides with `validChannel`. -/
lemma validChannel_iff_mem (c : Nat) : validChannel c = true ↔ c ∈ [1, 2, 3, 4] := by
  simp [validChannel]
  tauto

deriving instance DecidableEq for Except

/-- Claim C1: on a disabled channel (Connected, valid channel id),
`get_output_voltage` raises the *base* `PowerSupplyError` class — not the
distinguished `PowerSupplyChannelNotEnabledError` that `get_output_current`
raises in the same situation, even though both carry the same message.
Evaluated at the failing input: mock-connected supply, channel 1 disabled. -/
theorem C1_disabled_channel_error_class :
    mockConnected.channels 1 = false
    ∧ (get_output_voltage mockConnected 1 0 (.ok "") pfFixture).result
        = .error (.powerSupplyError "Channel 1 is not turned on.")
    ∧ (get_output_current mockConnected 1 0 (.ok "") pfFixture).result
        = .error (.channelNotEnabledError "Channel 1 is not turned on.")
    ∧ Exc.powerSupplyError "Channel 1 is not turned on."
        ≠ Exc.channelNotEnabledError "Channel 1 is not turned on." := by
  refine ⟨rfl, rfl, rfl, fun h => Exc.noConfusion h⟩

/-- Claim C3, counterexample: `setVoltage(1, -1)` does not fail with one
distinguished invalid-parameter error in both connection states — while
Disconnected it raises exactly the generic not-connected `PowerSupplyError`
(the connection check runs first), and while Connected it raises the generic
communication-failure `PowerSupplyError`; the two failures differ. -/
theorem C3_negative_setpoint_counterexample :
    (set_voltage realDisconnected 1 (-1) none).result
      = .error (.powerSupplyError "Power supply is not connected.")
    ∧ (set_voltage realConnected 1 (-1) none).result
      = .error (.powerSupplyError "Failed to communicate with power supply.")
    ∧ (set_voltage realDisconnected 1 (-1) none).result
      ≠ (set_voltage realConnected 1 (-1) none).result
    ∧ (set_voltage realDisconnected 1 (-1) none).trace = []
    ∧ (set_voltage realConnected 1 (-1) none).trace = [] := by
  refine ⟨by decide, by decide, by decide, by decide, by decide⟩

/-- Claim C3, amended: while Disconnected, `set_voltage`/`set_current_limit`
raise the not-connected `PowerSupplyError` for every value (the connection
check precedes the sign check), with no transport event; while Connected,
a negative value raises the generic communication-failure `PowerSupplyError`
before any transport event; while Connected with `v ≥ 0` (real mode, write
succeeding) the framed `VSET`/`ISET` command is written, 200 ms settle
follows, and the cached setpoint becomes `v`. -/
theorem C3_amended_setpoint_validation (st : PSState) (c : Nat) (v : ℚ) (w : Option Exc)
    (m : String) :
    (st.connection = false →
      (set_voltage st c v w).result = .error (.powerSupplyError "Power supply is not connected.")
      ∧ (set_voltage st c v w).trace = []
      ∧ (set_current_limit st c v w).result
          = .error (.powerSupplyError "Power supply is not connected.")
      ∧ (set_current_limit st c v w).trace = [])
    ∧ (st.connection = true → v < 0 →
      (set_voltage st c v w).result
          = .error (.powerSupplyError "Failed to communicate with power supply.")
      ∧ (set_voltage st c v w).trace = []
      ∧ (set_current_limit st c v w).result
          = .error (.powerSupplyError "Failed to communicate with power supply.")
      ∧ (set_current_limit st c v w).trace = [])
    ∧ (st.connection = true → 0 ≤ v → st.mock = false → st.module_id = some m →
        st.instrumentOpen = true → w = none →
      (set_voltage st c v w).result = .ok ()
      ∧ (set_voltage st c v w).trace
          = [.write (frame m ("VSET " ++ toString c ++ "," ++ toString v)), .sleepMs 200]
      ∧ (set_voltage st c v w).state.set_voltages c = some v
      ∧ (set_current_limit st c v w).state.set_currents c = some v) := by
  have hvlt : ¬ v < 0 ↔ 0 ≤ v := not_lt
  refine ⟨?_, ?_, ?_⟩
  · intro hconn
    simp [set_voltage, set_current_limit, hconn]
  · intro hconn hv
    simp [set_voltage, set_current_limit, hconn, hv]
  · intro hconn hv hmock hm hopen hw
    subst hw
    simp [set_voltage, set_current_limit, hconn, not_lt.mpr hv, send_command, hm, hmock, hopen]

/-- Claim C3, witness for the amended theorem at concrete inputs. -/
theorem C3_amended_setpoint_validation_witness :
    ((set_voltage realDisconnected 1 5 none).result
        = .error (.powerSupplyError "Power supply is not connected."))
    ∧ ((set_voltage realConnected 1 (-1) none).result
        = .error (.powerSupplyError "Failed to communicate with power supply."))
    ∧ ((set_voltage realConnected 1 5 none).state.set_voltages 1 = some 5) := by
  refine ⟨((C3_amended_setpoint_validation realDisconnected 1 5 none "5").1 rfl).1,
          (((C3_amended_setpoint_validation realConnected 1 (-1) none "5").2.1 rfl
            (by norm_num)).1),
          (((C3_amended_setpoint_validation realConnected 1 5 none "5").2.2 rfl
            (by norm_num) rfl rfl rfl rfl).2.2.1)⟩

/-- Claim C4, counterexample: `set_voltage_range` invoked while Disconnected
does not fail fast with the not-connected error — it succeeds and performs
the framed transport write. -/
theorem C4_passthrough_counterexample :
    realDisconnected.connection = false
    ∧ (set_voltage_range realDisconnected 1 10 none).result = .ok ()
    ∧ (set_voltage_range realDisconnected 1 10 none).trace
        = [.write "OUTPUT 5; VRSET 1,10", .sleepMs 200] := by
  refine ⟨rfl, rfl, rfl⟩

/-- Claim C4, amended: the five thin passthroughs perform no connection
check at all — invoked while Disconnected (real mode, instrument handle
present, write succeeding) each one still frames its command and writes it
to the transport, returning success. -/
theorem C4_amended_passthroughs_skip_connection_check (st : PSState) (c : Nat) (v : ℚ)
    (m : String) (hconn : st.connection = false) (hmock : st.mock = false)
    (hm : st.module_id = some m) (hopen : st.instrumentOpen = true) :
    ((set_voltage_range st c v none).result = .ok ()
      ∧ (set_voltage_range st c v none).trace
          = [.write (frame m ("VRSET " ++ toString c ++ "," ++ toString v)), .sleepMs 200])
    ∧ ((set_current_range st c v none).result = .ok ()
      ∧ (set_current_range st c v none).trace
          = [.write (frame m ("IRSET " ++ toString c ++ "," ++ toString v)), .sleepMs 200])
    ∧ ((set_overvoltage_protection st c v none).result = .ok ()
      ∧ (set_overvoltage_protection st c v none).trace
          = [.write (frame m ("OVSET " ++ toString c ++ "," ++ toString v)), .sleepMs 200])
    ∧ ((enable_overcurrent_protection st c none).result = .ok ()
      ∧ (enable_overcurrent_protection st c none).trace
          = [.write (frame m ("OCP " ++ toString c ++ ",ON")), .sleepMs 200])
    ∧ ((disable_overcurrent_protection st c none).result = .ok ()
      ∧ (disable_overcurrent_protection st c none).trace
          = [.write (frame m ("OCP " ++ toString c ++ ",OFF")), .sleepMs 200]) := by
  simp [set_voltage_range, set_current_range, set_overvoltage_protection,
    enable_overcurrent_protection, disable_overcurrent_protection,
    send_command, hm, hmock, hopen]

/-- Claim C4, witness for the amended theorem at concrete inputs. -/
theorem C4_amended_passthroughs_witness :
    (set_overvoltage_protection realDisconnected 2 6 none).result = .ok ()
    ∧ (set_overvoltage_protection realDisconnected 2 6 none).trace
        = [.write "OUTPUT 5; OVSET 2,6", .sleepMs 200] :=
  (C4_amended_passthroughs_skip_connection_check realDisconnected 2 6 "5"
    rfl rfl rfl rfl).2.2.1

/-- Claim C5, counterexample: a `-0.02` reply to `IOUT?` is *not* clamped —
`get_output_current` returns the negative value unchanged. -/
theorem C5_current_not_clamped_counterexample :
    (get_output_current realAllOn 1 0 (.ok "-0.02") pfFixture).result = .ok (-(1/50))
    ∧ (-(1/50) : ℚ) < 0 := by
  refine ⟨rfl, by norm_num⟩

/-- Claim C5, amended: in real mode, only the voltage side clamps — a
`VOUT?` reply parsing below zero makes `get_output_voltage` return 0, while
`get_output_current` returns the parsed `IOUT?` reply unchanged, negative
values included. -/
theorem C5_amended_clamping (st : PSState) (ch : Nat) (s : String) (r : ℚ)
    (pf : String → ℚ) (m : String)
    (hconn : st.connection = true) (hch : validChannel ch = true)
    (hen : st.channels ch = true) (hmock : st.mock = false)
    (hm : st.module_id = some m) (hopen : st.instrumentOpen = true) :
    (pf s < 0 → (get_output_voltage st ch r (.ok s) pf).result = .ok 0)
    ∧ (get_output_current st ch r (.ok s) pf).result = .ok (pf s) := by
  constructor
  · intro hneg
    simp [get_output_voltage, query_command, hconn, hch, hen, hmock, hm, hopen, hneg]
  · simp [get_output_current, query_command, hconn, hch, hen, hmock, hm, hopen]

/-- Claim C5, witness for the amended theorem at concrete inputs. -/
theorem C5_amended_clamping_witness :
    (get_output_voltage realAllOn 1 0 (.ok "-0.02") pfFixture).result = .ok 0
    ∧ (get_output_current realAllOn 1 0 (.ok "-0.02") pfFixture).result
        = .ok (pfFixture "-0.02") := by
  refine ⟨(C5_amended_clamping realAllOn 1 "-0.02" 0 pfFixture "5"
      rfl rfl rfl rfl rfl rfl).1 (by norm_num [pfFixture]),
    (C5_amended_clamping realAllOn 1 "-0.02" 0 pfFixture "5"
      rfl rfl rfl rfl rfl rfl).2⟩

/-- A write oracle under which every raw bridge write succeeds. -/
def bridgeWritesOk : Nat → Option Exc := fun _ => none

/-- A handshake in which every `ID?` query raises a transport timeout. -/
def handshakeAlwaysFails : Nat → Except Exc String :=
  fun _ => .error (.visaIOError "VI_ERROR_TMO")

/-- A handshake in which the unguarded initial `ID?` query succeeds and the
three retry-loop attempts all raise transport timeouts. -/
def handshakeFirstOkThenFails : Nat → Except Exc String :=
  fun k => if k = 0 then .ok "HP6626A" else .error (.visaIOError "VI_ERROR_TMO")

/-- In real mode (with the instrument handle present) a raising query is
re-raised by `_query_command` as some typed driver error, leaving the state
unchanged and recording the framed query. -/
lemma query_command_error_typed (st : PSState) (cmd : String) (e : Exc) (m : String)
    (hmid : st.module_id = some m) (hmock : st.mock = false)
    (hopen : st.instrumentOpen = true) :
    ∃ e', query_command st cmd (.error e) = ⟨.error e', [.query (frame m cmd)], st⟩ := by
  cases e <;> simp [query_command, hmid, hmock, hopen]

/-- When all three retry-loop attempts fail, the loop raises the
after-3-attempts `PowerSupplyError` without touching the state. -/
lemma connectRetry_all_fail (q : Nat → Except Exc String) (st : PSState) (m : String)
    (e1 e2 e3 : Exc)
    (h1 : q 1 = .error e1) (h2 : q 2 = .error e2) (h3 : q 3 = .error e3)
    (hmid : st.module_id = some m) (hmock : st.mock = false)
    (hopen : st.instrumentOpen = true) :
    connectRetry q 3 0 st
      = ⟨.error (.powerSupplyError "Failed to connect to power supply after 3 attempts."),
          [.query (frame m "ID?"), .query (frame m "ID?"), .query (frame m "ID?")], st⟩ := by
  obtain ⟨e1', hq1⟩ := query_command_error_typed st "ID?" e1 m hmid hmock hopen
  obtain ⟨e2', hq2⟩ := query_command_error_typed st "ID?" e2 m hmid hmock hopen
  obtain ⟨e3', hq3⟩ := query_command_error_typed st "ID?" e3 m hmid hmock hopen
  simp [connectRetry, h1, h2, h3, hq1, hq2, hq3]

/-- Claim C2, counterexample: `connect("COM3", 9600, "5")` with a handshake
that fails every time raises the transport-timeout error coming from the
*unguarded* initial `ID?` query — not the connection-establishment error —
after exactly one `ID?` query (no retry runs), and leaves the connection
flag `True` (state Connected), not Disconnected. -/
theorem C2_connect_counterexample :
    (connect (initState false false) "COM3" 9600 "5" 2500 none bridgeWritesOk
        handshakeAlwaysFails).result
      = .error (.timeoutError "Timeout occurred while communicating with power supply.")
    ∧ (connect (initState false false) "COM3" 9600 "5" 2500 none bridgeWritesOk
        handshakeAlwaysFails).state.connection = true
    ∧ ((connect (initState false false) "COM3" 9600 "5" 2500 none bridgeWritesOk
        handshakeAlwaysFails).trace.filter
          (fun e => match e with | .query _ => true | _ => false)).length = 1 := by
  refine ⟨rfl, rfl, rfl⟩

/-- Claim C2, amended: `connect` sets the connection flag before the
handshake and never resets it on failure.  If the unguarded initial `ID?`
query raises a transport timeout, `connect` raises the driver's timeout
error (no retry happens) and the state is left Connected; if the initial
query succeeds but all 3 retry-loop attempts fail, `connect` raises
`PowerSupplyError("Failed to connect to power supply after 3 attempts.")`
and the state is again left Connected, so subsequent operations requiring
Connected do not raise the not-connected error. -/
theorem C2_amended_connect_failure (q qx : Nat → Except Exc String) (mv s0 : String)
    (e1 e2 e3 : Exc)
    (hq : q 0 = .error (.visaIOError mv))
    (hx0 : qx 0 = .ok s0) (hx1 : qx 1 = .error e1) (hx2 : qx 2 = .error e2)
    (hx3 : qx 3 = .error e3) :
    ((connect (initState false false) "COM3" 9600 "5" 2500 none (fun _ => none) q).result
        = .error (.timeoutError "Timeout occurred while communicating with power supply.")
      ∧ (connect (initState false false) "COM3" 9600 "5" 2500 none (fun _ => none) q).state.connection
        = true)
    ∧ ((connect (initState false false) "COM3" 9600 "5" 2500 none (fun _ => none) qx).result
        = .error (.powerSupplyError "Failed to connect to power supply after 3 attempts.")
      ∧ (connect (initState false false) "COM3" 9600 "5" 2500 none (fun _ => none) qx).state.connection
        = true) := by
  constructor
  · simp [connect, Outcome.andThen, Outcome.thenEvents, send_raw_command, query_command,
      initState, hq]
  · have hr := connectRetry_all_fail qx realConnected "5" e1 e2 e3 hx1 hx2 hx3 rfl rfl rfl
    simp only [realConnected, initState] at hr
    simp [connect, Outcome.andThen, Outcome.thenEvents, send_raw_command, query_command,
      initState, hx0, hr]

/-- Claim C2, witness for the amended theorem at concrete handshakes. -/
theorem C2_amended_connect_failure_witness :
    (connect (initState false false) "COM3" 9600 "5" 2500 none (fun _ => none)
        handshakeFirstOkThenFails).result
      = .error (.powerSupplyError "Failed to connect to power supply after 3 attempts.")
    ∧ (connect (initState false false) "COM3" 9600 "5" 2500 none (fun _ => none)
        handshakeFirstOkThenFails).state.connection = true :=
  (C2_amended_connect_failure handshakeAlwaysFails handshakeFirstOkThenFails
    "VI_ERROR_TMO" "HP6626A" (.visaIOError "VI_ERROR_TMO") (.visaIOError "VI_ERROR_TMO")
    (.visaIOError "VI_ERROR_TMO") rfl rfl rfl rfl rfl).2

/-- Claim C6: `send_raw_command` does require a connection and a non-empty
command (failing before any transport event otherwise) and writes the
command unframed — but it returns the constant placeholder
`"TODO: Implement response"` without ever reading a reply, contradicting its
own docstring (`Returns: str: The response from the power supply`).
Evaluated at the failing input: connected supply, `send_raw_command("ID?")`. -/
theorem C6_send_raw_placeholder :
    (send_raw_command realConnected "ID?" none).result = .ok "TODO: Implement response"
    ∧ (send_raw_command realConnected "ID?" none).trace = [.write "ID?"]
    ∧ (send_raw_command realDisconnected "ID?" none).result
        = .error (.powerSupplyError "Power supply is not connected.")
    ∧ (send_raw_command realDisconnected "ID?" none).trace = []
    ∧ (send_raw_command realConnected "" none).result
        = .error (.powerSupplyError "Command is empty.")
    ∧ (send_raw_command realConnected "" none).trace = [] := by
  refine ⟨rfl, rfl, rfl, rfl, rfl, rfl⟩

/-- `_send_command` never mutates the driver state. -/
lemma send_command_state (st : PSState) (cmd : String) (w : Option Exc) :
    (send_command st cmd w).state = st := by
  unfold send_command
  cases h : st.module_id <;> simp
  split
  · rfl
  · split
    · rfl
    · cases w <;> rfl

/-- Claim C8: every write `_send_command` produces, and every query
`_query_command` produces, carries exactly the framed string
`OUTPUT <moduleId>; <body>`; and whenever a set command completes
successfully (mock or real), the last event before the lock is released is
the 200 ms settle sleep. -/
theorem C8_framing_and_settle (st : PSState) (m cmd : String) (w : Option Exc)
    (reply : Except Exc String) (hm : st.module_id = some m) :
    (∀ s, Event.write s ∈ (send_command st cmd w).trace → s = frame m cmd)
    ∧ ((send_command st cmd w).result = .ok () →
        (send_command st cmd w).trace.getLast? = some (.sleepMs 200))
    ∧ (∀ s, Event.query s ∈ (query_command st cmd reply).trace → s = frame m cmd) := by
  refine ⟨?_, ?_, ?_⟩
  · intro s hs
    unfold send_command at hs
    rw [hm] at hs
    by_cases hmo : st.mock
    · simp [hmo] at hs
    · by_cases hop : st.instrumentOpen
      · cases w <;> simp [hmo, hop] at hs <;> exact hs
      · have hop2 : st.instrumentOpen = false := by simpa using hop
        simp [hmo, hop2] at hs
  · intro hok
    unfold send_command at hok ⊢
    rw [hm] at hok ⊢
    by_cases hmo : st.mock
    · simp [hmo]
    · by_cases hop : st.instrumentOpen
      · cases w <;> simp [hmo, hop] at hok ⊢
      · have hop2 : st.instrumentOpen = false := by simpa using hop
        simp [hmo, hop2] at hok
  · intro s hs
    unfold query_command at hs
    rw [hm] at hs
    by_cases hmo : st.mock
    · simp [hmo] at hs
    · by_cases hop : st.instrumentOpen
      · cases reply with
        | ok rs => simp [hmo, hop] at hs; exact hs
        | error e => cases e <;> simp [hmo, hop] at hs <;> exact hs
      · have hop2 : st.instrumentOpen = false := by simpa using hop
        simp [hmo, hop2] at hs

/-- Claim C8, witness: concrete framing of `CLR` on the connected fixture
and the trailing settle sleep. -/
theorem C8_framing_and_settle_witness :
    "OUTPUT 5; CLR" = frame "5" "CLR"
    ∧ (send_command realConnected "CLR" none).trace.getLast? = some (.sleepMs 200) :=
  ⟨(C8_framing_and_settle realConnected "5" "CLR" none (.ok "") rfl).1
      "OUTPUT 5; CLR" (by decide),
   (C8_framing_and_settle realConnected "5" "CLR" none (.ok "") rfl).2.1 rfl⟩

/-- Claim C9: in mock mode (Connected), after `set_voltage(c, 3.3)` and
`enable_output(c)`, every `get_output_voltage(c)` with jitter draw
`r ∈ [0, 1)` returns `3.3 + (r - 0.5) * 0.1`, which lies within
`3.3 ± 0.05`. -/
theorem C9_mock_round_trip (st : PSState) (c : Nat) (r : ℚ) (w1 w2 : Option Exc)
    (reply : Except Exc String) (pf : String → ℚ) (m : String)
    (hconn : st.connection = true) (hmock : st.mock = true) (hm : st.module_id = some m)
    (hc : validChannel c = true) (hr0 : 0 ≤ r) (hr1 : r < 1) :
    ∃ v, (get_output_voltage
        ((enable_output ((set_voltage st c (33/10) w1).state) c w2).state) c r reply pf).result
          = .ok v
      ∧ |v - 33/10| ≤ 1/20 := by
  refine ⟨33/10 + (r - 1/2) * (1/10), ?_, ?_⟩
  · simp [set_voltage, send_command, enable_output, get_output_voltage, get_programmed_voltage,
      hconn, hmock, hm, hc, (by norm_num : ¬ (33/10 : ℚ) < 0)]
  · have h : (33/10 + (r - 1/2) * (1/10)) - 33/10 = r/10 - 1/20 := by ring
    rw [h, abs_le]
    constructor <;> linarith

/-- Claim C9, witness: the round trip on the mock fixture at channel 1 with
jitter draw 0. -/
theorem C9_mock_round_trip_witness :
    ∃ v, (get_output_voltage
        ((enable_output ((set_voltage mockConnected 1 (33/10) none).state) 1 none).state)
        1 0 (.ok "") pfFixture).result = .ok v
      ∧ |v - 33/10| ≤ 1/20 :=
  C9_mock_round_trip mockConnected 1 0 none none (.ok "") pfFixture "5"
    rfl rfl rfl rfl (by norm_num) (by norm_num)

/-- Claim C10: for a valid channel while Connected, `enable_output` /
`disable_output` leave the cached enabled flag at the requested value for
*every* write outcome; in particular when the `OUT` transmission raises, the
raw exception propagates, the framed write was attempted, and the flag keeps
the new value (no rollback). -/
theorem C10_output_cache_persists (st : PSState) (c : Nat) (m : String) (e : Exc)
    (hconn : st.connection = true) (hc : validChannel c = true)
    (hm : st.module_id = some m) (hmock : st.mock = false) (hopen : st.instrumentOpen = true) :
    (∀ w, (enable_output st c w).state.channels c = true)
    ∧ (∀ w, (disable_output st c w).state.channels c = false)
    ∧ ((enable_output st c (some e)).result = .error e
      ∧ (enable_output st c (some e)).trace = [.write (frame m ("OUT " ++ toString c ++ ",1"))]
      ∧ (enable_output st c (some e)).state.channels c = true)
    ∧ ((disable_output st c (some e)).result = .error e
      ∧ (disable_output st c (some e)).state.channels c = false) := by
  refine ⟨?_, ?_, ⟨?_, ?_, ?_⟩, ?_, ?_⟩
  · intro w
    simp [enable_output, hconn, hc, send_command_state]
  · intro w
    simp [disable_output, hconn, hc, send_command_state]
  · simp [enable_output, hconn, hc, send_command, hm, hmock, hopen]
  · simp [enable_output, hconn, hc, send_command, hm, hmock, hopen]
  · simp [enable_output, hconn, hc, send_command, hm, hmock, hopen]
  · simp [disable_output, hconn, hc, send_command, hm, hmock, hopen]
  · simp [disable_output, hconn, hc, send_command, hm, hmock, hopen]

/-- Claim C10, witness: a raising `OUT 1,1` write on the connected fixture
propagates the raw error while the enabled flag stays `true`. -/
theorem C10_output_cache_persists_witness :
    (enable_output realConnected 1 (some (.visaIOError "VI_ERROR_IO"))).result
        = .error (.visaIOError "VI_ERROR_IO")
    ∧ (enable_output realConnected 1 (some (.visaIOError "VI_ERROR_IO"))).state.channels 1
        = true :=
  ⟨(C10_output_cache_persists realConnected 1 "5" (.visaIOError "VI_ERROR_IO")
      rfl rfl rfl rfl rfl).2.2.1.1,
   (C10_output_cache_persists realConnected 1 "5" (.visaIOError "VI_ERROR_IO")
      rfl rfl rfl rfl rfl).2.2.1.2.2⟩

/-- In real mode, every exception `_query_command` raises belongs to the
`PowerSupplyError` class hierarchy (raw transport errors are re-typed). -/
lemma query_command_error_class (st : PSState) (cmd : String) (reply : Except Exc String)
    (e : Exc) (hmock : st.mock = false)
    (h : (query_command st cmd reply).result = .error e) :
    e.isPowerSupplyErrorClass = true := by
  unfold query_command at h
  cases hm : st.module_id with
  | none => rw [hm] at h; simp at h; subst h; rfl
  | some mid =>
    rw [hm] at h
    simp [hmock] at h
    by_cases hop : st.instrumentOpen
    · rw [if_neg (by simp [hop])] at h
      cases reply with
      | ok s => simp at h
      | error e2 => cases e2 <;> simp at h <;> subst h <;> rfl
    · rw [if_pos (by simpa using hop)] at h
      simp at h; subst h; rfl

/-- In real mode, `_query_command` never returns Python `None`. -/
lemma query_command_not_ok_none (st : PSState) (cmd : String) (reply : Except Exc String)
    (hmock : st.mock = false) :
    (query_command st cmd reply).result ≠ .ok none := by
  unfold query_command
  cases hm : st.module_id with
  | none => simp
  | some mid =>
    simp [hmock]
    by_cases hop : st.instrumentOpen
    · rw [if_neg (by simp [hop])]
      cases reply with
      | ok s => simp
      | error e2 => cases e2 <;> simp
    · rw [if_pos (by simpa using hop)]
      simp

/-- Every exception `get_output_voltage` raises (over a state whose setpoint
dicts hold all channel keys, as `__init__` guarantees) belongs to the
`PowerSupplyError` class hierarchy, so the poller's `except` clauses catch
it. -/
lemma get_output_voltage_error_class (st : PSState) (ch : Nat) (r : ℚ)
    (reply : Except Exc String) (pf : String → ℚ) (e : Exc)
    (hd : dictsComplete st)
    (h : (get_output_voltage st ch r reply pf).result = .error e) :
    e.isPowerSupplyErrorClass = true := by
  unfold get_output_voltage at h
  by_cases hcn : st.connection = false
  · simp [hcn] at h; subst h; rfl
  · rw [if_neg hcn] at h
    by_cases hvc : validChannel ch = false
    · simp [hvc] at h; subst h; rfl
    · rw [if_neg hvc] at h
      by_cases hen : st.channels ch = false
      · simp [hen] at h; subst h; rfl
      · rw [if_neg hen] at h
        by_cases hmo : st.mock
        · rw [if_pos hmo] at h
          have hv : validChannel ch = true := by simpa using hvc
          obtain ⟨hs, -⟩ := hd ch ((validChannel_iff_mem ch).mp hv)
          unfold get_programmed_voltage at h
          rw [if_pos hmo] at h
          cases hsv : st.set_voltages ch with
          | none => rw [hsv] at hs; simp at hs
          | some v => rw [hsv] at h; simp at h
        · rw [if_neg hmo] at h
          have hmo2 : st.mock = false := by simpa using hmo
          rcases hq : query_command st ("VOUT? " ++ toString ch) reply with ⟨res, tr, st2⟩
          rw [hq] at h
          cases res with
          | error e2 =>
            simp at h
            subst h
            have := query_command_error_class st ("VOUT? " ++ toString ch) reply e2 hmo2
            rw [hq] at this
            exact this rfl
          | ok o =>
            cases o with
            | none =>
              exfalso
              have := query_command_not_ok_none st ("VOUT? " ++ toString ch) reply hmo2
              rw [hq] at this
              exact this rfl
            | some s => simp at h

/-- Counterpart of `get_output_voltage_error_class` for
`get_output_current`. -/
lemma get_output_current_error_class (st : PSState) (ch : Nat) (r : ℚ)
    (reply : Except Exc String) (pf : String → ℚ) (e : Exc)
    (hd : dictsComplete st)
    (h : (get_output_current st ch r reply pf).result = .error e) :
    e.isPowerSupplyErrorClass = true := by
  unfold get_output_current at h
  by_cases hcn : st.connection = false
  · simp [hcn] at h; subst h; rfl
  · rw [if_neg hcn] at h
    by_cases hvc : validChannel ch = false
    · simp [hvc] at h; subst h; rfl
    · rw [if_neg hvc] at h
      by_cases hen : st.channels ch = false
      · simp [hen] at h; subst h; rfl
      · rw [if_neg hen] at h
        by_cases hmo : st.mock
        · rw [if_pos hmo] at h
          have hv : validChannel ch = true := by simpa using hvc
          obtain ⟨-, hs⟩ := hd ch ((validChannel_iff_mem ch).mp hv)
          unfold get_programmed_current_limit at h
          rw [if_pos hmo] at h
          cases hsv : st.set_currents ch with
          | none => rw [hsv] at hs; simp at hs
          | some v => rw [hsv] at h; simp at h
        · rw [if_neg hmo] at h
          have hmo2 : st.mock = false := by simpa using hmo
          rcases hq : query_command st ("IOUT? " ++ toString ch) reply with ⟨res, tr, st2⟩
          rw [hq] at h
          cases res with
          | error e2 =>
            simp at h
            subst h
            have := query_command_error_class st ("IOUT? " ++ toString ch) reply e2 hmo2
            rw [hq] at this
            exact this rfl
          | ok o =>
            cases o with
            | none =>
              exfalso
              have := query_command_not_ok_none st ("IOUT? " ++ toString ch) reply hmo2
              rw [hq] at this
              exact this rfl
            | some s => simp at h

/-- A poller channel visit never lets an exception escape: every error the
two getters can raise is caught by the three `except` clauses. -/
lemma pollChannel_result_ok (st : PSState) (ch : Nat) (rv rc : ℚ)
    (qv qc : Except Exc String) (pf : String → ℚ) (hd : dictsComplete st) :
    ∃ o, (pollChannel st ch rv rc qv qc pf).1 = .ok o := by
  unfold pollChannel
  rcases hgv : get_output_voltage st ch rv qv pf with ⟨resv, trv, stv⟩
  cases resv with
  | error e =>
    have he := get_output_voltage_error_class st ch rv qv pf e hd (by rw [hgv])
    exact ⟨none, by simp [he]⟩
  | ok v =>
    rcases hgc : get_output_current st ch rc qc pf with ⟨resc, trc, stc⟩
    cases resc with
    | error e =>
      have he := get_output_current_error_class st ch rc qc pf e hd (by rw [hgc])
      exact ⟨none, by simp [he]⟩
    | ok c => exact ⟨some (ch, v, c), by simp⟩

/-- When both getters succeed at a channel, the visit emits exactly that
channel's sample. -/
lemma pollChannel_ok_sample (st : PSState) (ch : Nat) (rv rc : ℚ)
    (qv qc : Except Exc String) (pf : String → ℚ) (v c : ℚ)
    (hv : (get_output_voltage st ch rv qv pf).result = .ok v)
    (hc : (get_output_current st ch rc qc pf).result = .ok c) :
    (pollChannel st ch rv rc qv qc pf).1 = .ok (some (ch, v, c)) := by
  unfold pollChannel
  rcases hgv : get_output_voltage st ch rv qv pf with ⟨resv, trv, stv⟩
  rcases hgc : get_output_current st ch rc qc pf with ⟨resc, trc, stc⟩
  rw [hgv] at hv
  rw [hgc] at hc
  simp at hv hc
  subst hv
  subst hc
  simp

/-- A sample emitted by a channel visit carries that channel's id. -/
lemma pollChannel_sample_channel (st : PSState) (ch : Nat) (rv rc : ℚ)
    (qv qc : Except Exc String) (pf : String → ℚ) (s : Sample)
    (h : (pollChannel st ch rv rc qv qc pf).1 = .ok (some s)) : s.1 = ch := by
  unfold pollChannel at h
  rcases hgv : get_output_voltage st ch rv qv pf with ⟨resv, trv, stv⟩
  rw [hgv] at h
  cases resv with
  | error e => by_cases he : e.isPowerSupplyErrorClass <;> simp [he] at h
  | ok v =>
    rcases hgc : get_output_current st ch rc qc pf with ⟨resc, trc, stc⟩
    rw [hgc] at h
    cases resc with
    | error e => by_cases he : e.isPowerSupplyErrorClass <;> simp [he] at h
    | ok c =>
      simp at h
      rw [← h]

/-- Claim C7: a poller sweep visits channels 1..4 in ascending order
(`get_output_voltage` then `get_output_current` per channel), no driver
error escapes the sweep, a channel whose two getters succeed contributes its
sample regardless of what other channels raise, and the sweep ends with the
100 ms interval sleep. -/
theorem C7_poller_sweep (st : PSState) (rv rc : Nat → ℚ) (qv qc : Nat → Except Exc String)
    (pf : String → ℚ) (hd : dictsComplete st) :
    ∃ samples,
      (monitorSweep st rv rc qv qc pf).1 = .ok samples
      ∧ (samples.map (fun s : Sample => s.1)).Sublist [1, 2, 3, 4]
      ∧ (∀ ch v c, ch ∈ [1, 2, 3, 4] →
          (get_output_voltage st ch (rv ch) (qv ch) pf).result = .ok v →
          (get_output_current st ch (rc ch) (qc ch) pf).result = .ok c →
          (ch, v, c) ∈ samples)
      ∧ (monitorSweep st rv rc qv qc pf).2.getLast? = some (.sleepMs 100) := by
  obtain ⟨o1, ho1⟩ := pollChannel_result_ok st 1 (rv 1) (rc 1) (qv 1) (qc 1) pf hd
  obtain ⟨o2, ho2⟩ := pollChannel_result_ok st 2 (rv 2) (rc 2) (qv 2) (qc 2) pf hd
  obtain ⟨o3, ho3⟩ := pollChannel_result_ok st 3 (rv 3) (rc 3) (qv 3) (qc 3) pf hd
  obtain ⟨o4, ho4⟩ := pollChannel_result_ok st 4 (rv 4) (rc 4) (qv 4) (qc 4) pf hd
  rcases hp1 : pollChannel st 1 (rv 1) (rc 1) (qv 1) (qc 1) pf with ⟨res1, tr1⟩
  rcases hp2 : pollChannel st 2 (rv 2) (rc 2) (qv 2) (qc 2) pf with ⟨res2, tr2⟩
  rcases hp3 : pollChannel st 3 (rv 3) (rc 3) (qv 3) (qc 3) pf with ⟨res3, tr3⟩
  rcases hp4 : pollChannel st 4 (rv 4) (rc 4) (qv 4) (qc 4) pf with ⟨res4, tr4⟩
  rw [hp1] at ho1
  rw [hp2] at ho2
  rw [hp3] at ho3
  rw [hp4] at ho4
  simp at ho1 ho2 ho3 ho4
  subst ho1
  subst ho2
  subst ho3
  subst ho4
  refine ⟨o1.toList ++ o2.toList ++ o3.toList ++ o4.toList, ?_, ?_, ?_, ?_⟩
  · simp [monitorSweep, sweepChannels, hp1, hp2, hp3, hp4]
  · have hs1 : (o1.toList.map (fun s : Sample => s.1)).Sublist [1] := by
      cases ho : o1 with
      | none => simp
      | some s =>
        have := pollChannel_sample_channel st 1 (rv 1) (rc 1) (qv 1) (qc 1) pf s
          (by rw [hp1, ho])
        simp [this]
    have hs2 : (o2.toList.map (fun s : Sample => s.1)).Sublist [2] := by
      cases ho : o2 with
      | none => simp
      | some s =>
        have := pollChannel_sample_channel st 2 (rv 2) (rc 2) (qv 2) (qc 2) pf s
          (by rw [hp2, ho])
        simp [this]
    have hs3 : (o3.toList.map (fun s : Sample => s.1)).Sublist [3] := by
      cases ho : o3 with
      | none => simp
      | some s =>
        have := pollChannel_sample_channel st 3 (rv 3) (rc 3) (qv 3) (qc 3) pf s
          (by rw [hp3, ho])
        simp [this]
    have hs4 : (o4.toList.map (fun s : Sample => s.1)).Sublist [4] := by
      cases ho : o4 with
      | none => simp
      | some s =>
        have := pollChannel_sample_channel st 4 (rv 4) (rc 4) (qv 4) (qc 4) pf s
          (by rw [hp4, ho])
        simp [this]
    have hl : ([1, 2, 3, 4] : List Nat) = [1] ++ [2] ++ [3] ++ [4] := rfl
    rw [hl]
    simp only [List.map_append]
    exact ((hs1.append hs2).append hs3).append hs4
  · intro ch v c hch hv hc
    have hs := pollChannel_ok_sample st ch (rv ch) (rc ch) (qv ch) (qc ch) pf v c hv hc
    simp at hch
    rcases hch with rfl | rfl | rfl | rfl
    · rw [hp1] at hs; simp at hs; rw [hs] at *; simp
    · rw [hp2] at hs; simp at hs; rw [hs] at *; simp
    · rw [hp3] at hs; simp at hs; rw [hs] at *; simp
    · rw [hp4] at hs; simp at hs; rw [hs] at *; simp
  · simp [monitorSweep, sweepChannels, hp1, hp2, hp3, hp4, monitorInterval,
      List.getLast?_append_cons]

/-- A mock-connected fixture with channels 1, 3, 4 enabled and channel 2
disabled, programmed to 1 V / 2 A. -/
def pollerFixture : PSState :=
  { mockConnected with
      channels := fun c => c == 1 || c == 3 || c == 4,
      set_voltages := fun c => if validChannel c then some 1 else none,
      set_currents := fun c => if validChannel c then some 2 else none }

/-- Claim C7, witness: with channel 2 disabled (its voltage getter raising
the disabled-channel error), one sweep still emits samples for channels 1,
3 and 4 and ends with the 100 ms sleep. -/
theorem C7_poller_sweep_witness :
    ∃ samples,
      (monitorSweep pollerFixture (fun _ => 1/2) (fun _ => 1/2) (fun _ => .ok "")
          (fun _ => .ok "") pfFixture).1 = .ok samples
      ∧ ((1 : Nat), (1 : ℚ), (2 : ℚ)) ∈ samples
      ∧ ((3 : Nat), (1 : ℚ), (2 : ℚ)) ∈ samples
      ∧ ((4 : Nat), (1 : ℚ), (2 : ℚ)) ∈ samples
      ∧ (get_output_voltage pollerFixture 2 (1/2) (.ok "") pfFixture).result
          = .error (.powerSupplyError "Channel 2 is not turned on.")
      ∧ (monitorSweep pollerFixture (fun _ => 1/2) (fun _ => 1/2) (fun _ => .ok "")
          (fun _ => .ok "") pfFixture).2.getLast? = some (.sleepMs 100) := by
  obtain ⟨samples, hok, hsub, hmem, hlast⟩ :=
    C7_poller_sweep pollerFixture (fun _ => 1/2) (fun _ => 1/2) (fun _ => .ok "")
      (fun _ => .ok "") pfFixture (by unfold dictsComplete; decide)
  refine ⟨samples, hok, ?_, ?_, ?_, ?_, hlast⟩
  · refine hmem 1 1 2 (by decide) ?_ ?_
    · simp [get_output_voltage, get_programmed_voltage, pollerFixture, mockConnected,
        initState, validChannel]
    · simp [get_output_current, get_programmed_current_limit, pollerFixture, mockConnected,
        initState, validChannel]
  · refine hmem 3 1 2 (by decide) ?_ ?_
    · simp [get_output_voltage, get_programmed_voltage, pollerFixture, mockConnected,
        initState, validChannel]
    · simp [get_output_current, get_programmed_current_limit, pollerFixture, mockConnected,
        initState, validChannel]
  · refine hmem 4 1 2 (by decide) ?_ ?_
    · simp [get_output_voltage, get_programmed_voltage, pollerFixture, mockConnected,
        initState, validChannel]
    · simp [get_output_current, get_programmed_current_limit, pollerFixture, mockConnected,
        initState, validChannel]
  · simp [get_output_voltage, pollerFixture, mockConnected, initState, validChannel]
    rfl

end Agilent6626
